import Mathlib

/-!
Verification of the DCF valuation pipeline in `3.Discounted_Cash_Flow.py`.

Numeric model: real-valued financial quantities are embedded as rationals
(`ℚ`), so the algebraic structure of every formula in the source is
preserved exactly.  The floating-point `NaN` that `np.isnan` tests for has
no rational counterpart, so the fallback condition `np.isnan(fcff) or
fcff <= 0` specialises to `fcff ≤ 0` here.
-/

/-- Raw numeric line items as returned by the provider, before the
default-on-missing normalisation of lines 54-69 of the source.  A `none`
models a field absent from the provider response (`"X" in financials.index`
false, or `info.get` returning the stated default). -/
structure RawSnapshot where
  ebit : Option ℚ
  taxes : Option ℚ
  income_before_tax : Option ℚ
  depreciation : Option ℚ
  capital_expenditure : Option ℚ
  working_capital_change : Option ℚ
  interest_expense : Option ℚ
  total_debt : Option ℚ
  cash_equivalents : Option ℚ
  shares_outstanding : Option ℚ
  market_cap : Option ℚ
  current_assets : Option ℚ
  current_liabilities : Option ℚ
  net_ppe : Option ℚ
  beta : Option ℚ
  current_price : Option ℚ
  net_income : Option ℚ
  deriving Repr, DecidableEq

/-- The normalised snapshot: every line item pulled with its default
applied (lines 54-69).  `capex` is the negated raw capital-expenditure
line (line 58: `-cashflow.loc["Capital Expenditure"]`). -/
structure CompanySnapshot where
  ebit : ℚ
  taxes : ℚ
  income_before_tax : ℚ
  depreciation : ℚ
  capex : ℚ
  working_capital_change : ℚ
  interest_expense : ℚ
  total_debt : ℚ
  cash_equivalents : ℚ
  shares_outstanding : ℚ
  market_cap : ℚ
  current_assets : ℚ
  current_liabilities : ℚ
  net_ppe : ℚ
  beta : ℚ
  current_price : ℚ
  net_income : ℚ
  deriving Repr, DecidableEq

/-- Normalisation of lines 54-69: every missing numeric field becomes 0,
missing beta becomes 1, and the capital-expenditure line is negated when
present (else 0). -/
def normalizeSnapshot (r : RawSnapshot) : CompanySnapshot where
  ebit := r.ebit.getD 0
  taxes := r.taxes.getD 0
  income_before_tax := r.income_before_tax.getD 0
  depreciation := r.depreciation.getD 0
  capex := match r.capital_expenditure with
    | some x => -x
    | none => 0
  working_capital_change := r.working_capital_change.getD 0
  interest_expense := r.interest_expense.getD 0
  total_debt := r.total_debt.getD 0
  cash_equivalents := r.cash_equivalents.getD 0
  shares_outstanding := r.shares_outstanding.getD 0
  market_cap := r.market_cap.getD 0
  current_assets := r.current_assets.getD 0
  current_liabilities := r.current_liabilities.getD 0
  net_ppe := r.net_ppe.getD 0
  beta := r.beta.getD 1
  current_price := r.current_price.getD 0
  net_income := r.net_income.getD 0

/-- The five assumption constants of lines 72-76, taken as a parameter so
the engine is a function of (snapshot, assumptions). -/
structure ValuationAssumptions where
  risk_free_rate : ℚ
  market_return : ℚ
  growth_rate : ℚ
  perpetual_growth_rate : ℚ
  forecast_years : ℕ
  deriving Repr, DecidableEq

/-- The concrete constants hardcoded at lines 72-76 of the source. -/
def defaultAssumptions : ValuationAssumptions where
  risk_free_rate := 0.0917
  market_return := 0.08
  growth_rate := 0.05
  perpetual_growth_rate := 0.03
  forecast_years := 5

/-- Verdict at line 117: `"Undervalued" if upside > 0 else "Overvalued"`. -/
inductive Verdict where
  | Undervalued
  | Overvalued
  deriving Repr, DecidableEq

/-- All fields the engine derives for one ticker (the quantities computed
at lines 79-117 and written to the report and the CSV row). -/
structure DCFResult where
  fcff : ℚ
  effective_tax_rate : ℚ
  wacc : ℚ
  roic : ℚ
  excess_returns : ℚ
  future_fcff : List ℚ
  pv_fcff : List ℚ
  terminal_value : ℚ
  pv_terminal : ℚ
  total_pv : ℚ
  market_equity_value : ℚ
  fair_value_per_share : ℚ
  upside_pct : ℚ
  margin_of_safety_pct : ℚ
  valuation_verdict : Verdict
  deriving Repr, DecidableEq

/-- Effective tax rate, the guarded expression repeated at lines 79, 84
and 89: `taxes / income_before_tax if income_before_tax != 0 else 0.25`
(line 79 uses Python truthiness, identical to the `!= 0` test for
numbers). -/
def effective_tax_rate (s : CompanySnapshot) : ℚ :=
  if s.income_before_tax ≠ 0 then s.taxes / s.income_before_tax else 0.25

/-- Primary FCFF of lines 79-80:
`ebit * (1 - etr) + depreciation - capex - working_capital_change`. -/
def primary_fcff (s : CompanySnapshot) : ℚ :=
  s.ebit * (1 - effective_tax_rate s)
    + s.depreciation - s.capex - s.working_capital_change

/-- Fallback FCFF of lines 83-86:
`nopat + depreciation - capex - working_capital_change` with
`nopat = net_income + interest_expense * (1 - etr)`. -/
def fallback_fcff (s : CompanySnapshot) : ℚ :=
  s.net_income + s.interest_expense * (1 - effective_tax_rate s)
    + s.depreciation - s.capex - s.working_capital_change

/-- FCFF after the line 82 replacement `if np.isnan(fcff) or fcff <= 0`.
Rationals have no NaN, so the condition is `fcff ≤ 0`. -/
def fcff (s : CompanySnapshot) : ℚ :=
  if primary_fcff s ≤ 0 then fallback_fcff s else primary_fcff s

/-- Cost of debt, line 90. -/
def cost_of_debt (s : CompanySnapshot) : ℚ :=
  if s.total_debt ≠ 0
  then s.interest_expense / s.total_debt * (1 - effective_tax_rate s)
  else 0

/-- Cost of equity (CAPM), line 91. -/
def cost_of_equity (s : CompanySnapshot) (a : ValuationAssumptions) : ℚ :=
  a.risk_free_rate + s.beta * (a.market_return - a.risk_free_rate)

/-- Line 92: `total_weight = total_debt + market_cap`. -/
def total_weight (s : CompanySnapshot) : ℚ :=
  s.total_debt + s.market_cap

/-- Line 93. -/
def weight_debt (s : CompanySnapshot) : ℚ :=
  if total_weight s ≠ 0 then s.total_debt / total_weight s else 0

/-- Line 94. -/
def weight_equity (s : CompanySnapshot) : ℚ :=
  if total_weight s ≠ 0 then s.market_cap / total_weight s else 1

/-- The blended rate of line 95, before the clamp of line 96. -/
def wacc_pre_clamp (s : CompanySnapshot) (a : ValuationAssumptions) : ℚ :=
  weight_equity s * cost_of_equity s a + weight_debt s * cost_of_debt s

/-- Line 96: `wacc = min(max(wacc, 0.05), 0.25)`. -/
def wacc (s : CompanySnapshot) (a : ValuationAssumptions) : ℚ :=
  min (max (wacc_pre_clamp s a) 0.05) 0.25

/-- Line 99. -/
def invested_capital (s : CompanySnapshot) : ℚ :=
  s.current_assets - s.current_liabilities + s.net_ppe

/-- Line 100. -/
def roic (s : CompanySnapshot) : ℚ :=
  if invested_capital s ≠ 0
  then s.ebit * (1 - effective_tax_rate s) / invested_capital s
  else 0

/-- Line 101. -/
def excess_returns (s : CompanySnapshot) (a : ValuationAssumptions) : ℚ :=
  if roic s ≠ 0 ∧ wacc s a ≠ 0 then roic s - wacc s a else 0

/-- Line 104: `[fcff * (1 + growth_rate) ** t for t in range(1, n + 1)]`,
written with the 0-based index `i` standing for `t = i + 1`. -/
def future_fcff (s : CompanySnapshot) (a : ValuationAssumptions) : List ℚ :=
  (List.range a.forecast_years).map
    (fun i => fcff s * (1 + a.growth_rate) ^ (i + 1))

/-- Line 105: `future_fcff[-1] if future_fcff else fcff`. -/
def last_fcff (s : CompanySnapshot) (a : ValuationAssumptions) : ℚ :=
  (future_fcff s a).getLast?.getD (fcff s)

/-- Line 106, with the Python comparison `wacc > perpetual_growth_rate`
written as `perpetual_growth_rate < wacc`. -/
def terminal_value (s : CompanySnapshot) (a : ValuationAssumptions) : ℚ :=
  if a.perpetual_growth_rate < wacc s a
  then last_fcff s a * (1 + a.perpetual_growth_rate)
        / (wacc s a - a.perpetual_growth_rate)
  else 0

/-- Line 108: `[fcf / (1 + wacc) ** t for t, fcf in enumerate(future_fcff, 1)]`,
with `enum` giving the 0-based index so `t = i + 1`. -/
def pv_fcff (s : CompanySnapshot) (a : ValuationAssumptions) : List ℚ :=
  (future_fcff s a).enum.map
    (fun p => p.2 / (1 + wacc s a) ^ (p.1 + 1))

/-- Line 109. -/
def pv_terminal (s : CompanySnapshot) (a : ValuationAssumptions) : ℚ :=
  if terminal_value s a ≠ 0
  then terminal_value s a / (1 + wacc s a) ^ a.forecast_years
  else 0

/-- Line 110. -/
def total_pv (s : CompanySnapshot) (a : ValuationAssumptions) : ℚ :=
  (pv_fcff s a).sum + pv_terminal s a

/-- Line 112. -/
def market_equity_value (s : CompanySnapshot) (a : ValuationAssumptions) : ℚ :=
  total_pv s a + s.cash_equivalents - s.total_debt

/-- Line 113. -/
def fair_value_per_share (s : CompanySnapshot) (a : ValuationAssumptions) : ℚ :=
  if s.shares_outstanding ≠ 0
  then market_equity_value s a / s.shares_outstanding
  else 0

/-- Line 115 (`if current_price` truthiness is the `≠ 0` test). -/
def upside (s : CompanySnapshot) (a : ValuationAssumptions) : ℚ :=
  if s.current_price ≠ 0
  then (fair_value_per_share s a - s.current_price) / s.current_price * 100
  else 0

/-- Line 116. -/
def margin_of_safety_pct (s : CompanySnapshot) (a : ValuationAssumptions) : ℚ :=
  if fair_value_per_share s a ≠ 0
  then (fair_value_per_share s a - s.current_price) / fair_value_per_share s a * 100
  else 0

/-- Line 117. -/
def valuation (s : CompanySnapshot) (a : ValuationAssumptions) : Verdict :=
  if 0 < upside s a then Verdict.Undervalued else Verdict.Overvalued

/-- The whole computation of lines 79-117 assembled into one record: the
pure valuation engine `evaluate(snapshot, assumptions)`. -/
def calculate_dcf (s : CompanySnapshot) (a : ValuationAssumptions) : DCFResult where
  fcff := fcff s
  effective_tax_rate := effective_tax_rate s
  wacc := wacc s a
  roic := roic s
  excess_returns := excess_returns s a
  future_fcff := future_fcff s a
  pv_fcff := pv_fcff s a
  terminal_value := terminal_value s a
  pv_terminal := pv_terminal s a
  total_pv := total_pv s a
  market_equity_value := market_equity_value s a
  fair_value_per_share := fair_value_per_share s a
  upside_pct := upside s a
  margin_of_safety_pct := margin_of_safety_pct s a
  valuation_verdict := valuation s a

/-- The example snapshot of the testable-properties section: ebit 1000,
taxes 250, pretax income 1000, depreciation 100, capex 150, working
capital change 50, total debt 0, market cap 10000, beta 1; remaining
fields 0. -/
def exampleSnapshot : CompanySnapshot where
  ebit := 1000
  taxes := 250
  income_before_tax := 1000
  depreciation := 100
  capex := 150
  working_capital_change := 50
  interest_expense := 0
  total_debt := 0
  cash_equivalents := 0
  shares_outstanding := 0
  market_cap := 10000
  current_assets := 0
  current_liabilities := 0
  net_ppe := 0
  beta := 1
  current_price := 0
  net_income := 0

/-- An all-zero snapshot: every line item missing and defaulted to 0
(beta included, i.e. a raw beta reported as 0). -/
def zeroSnapshot : CompanySnapshot where
  ebit := 0
  taxes := 0
  income_before_tax := 0
  depreciation := 0
  capex := 0
  working_capital_change := 0
  interest_expense := 0
  total_debt := 0
  cash_equivalents := 0
  shares_outstanding := 0
  market_cap := 0
  current_assets := 0
  current_liabilities := 0
  net_ppe := 0
  beta := 0
  current_price := 0
  net_income := 0

/-- A snapshot that is all zero except cash on hand and a single share:
its market equity value is the cash pile, so its fair value per share is
strictly positive. -/
def cashSnapshot : CompanySnapshot where
  ebit := 0
  taxes := 0
  income_before_tax := 0
  depreciation := 0
  capex := 0
  working_capital_change := 0
  interest_expense := 0
  total_debt := 0
  cash_equivalents := 100
  shares_outstanding := 1
  market_cap := 0
  current_assets := 0
  current_liabilities := 0
  net_ppe := 0
  beta := 0
  current_price := 0
  net_income := 0

theorem future_fcff_length (s : CompanySnapshot) (a : ValuationAssumptions) :
    (future_fcff s a).length = a.forecast_years := by
  simp [future_fcff]

theorem pv_fcff_length (s : CompanySnapshot) (a : ValuationAssumptions) :
    (pv_fcff s a).length = a.forecast_years := by
  simp [pv_fcff, future_fcff]

theorem future_fcff_getElem? (s : CompanySnapshot) (a : ValuationAssumptions)
    (i : ℕ) :
    (future_fcff s a)[i]? =
      if i < a.forecast_years
      then some (fcff s * (1 + a.growth_rate) ^ (i + 1))
      else none := by
  by_cases h : i < a.forecast_years
  · simp [future_fcff, List.getElem?_range h, h]
  · simp only [future_fcff, if_neg h, List.getElem?_map]
    rw [List.getElem?_eq_none (by simpa using Nat.le_of_not_lt h)]
    rfl

theorem pv_fcff_getElem? (s : CompanySnapshot) (a : ValuationAssumptions)
    (i : ℕ) :
    (pv_fcff s a)[i]? =
      if i < a.forecast_years
      then some (fcff s * (1 + a.growth_rate) ^ (i + 1)
                  / (1 + wacc s a) ^ (i + 1))
      else none := by
  have henum := List.getElem?_enum (future_fcff s a) i
  by_cases h : i < a.forecast_years
  · simp only [pv_fcff, List.getElem?_map, henum, future_fcff_getElem?, if_pos h]
    rfl
  · simp only [pv_fcff, List.getElem?_map, henum, future_fcff_getElem?, if_neg h]
    rfl

/-- C1: `evaluate` produces a forecast list of length `forecast_years`
whose entry for year `t` (1-based) is `fcff * (1 + growth_rate) ^ t`, a
present-value list of the same length discounting each entry by
`(1 + wacc) ^ t`, and then `total_pv = sum pv_fcff + pv_terminal`,
`market_equity_value = total_pv + cash_equivalents - total_debt`, and
`fair_value_per_share = market_equity_value / shares_outstanding` when
`shares_outstanding ≠ 0`, else `0`. -/
theorem C1_forecast_and_value (s : CompanySnapshot) (a : ValuationAssumptions) :
    (calculate_dcf s a).future_fcff.length = a.forecast_years ∧
    (calculate_dcf s a).pv_fcff.length = a.forecast_years ∧
    (∀ t : ℕ, 1 ≤ t → t ≤ a.forecast_years →
      (calculate_dcf s a).future_fcff[t - 1]? =
          some ((calculate_dcf s a).fcff * (1 + a.growth_rate) ^ t) ∧
      (calculate_dcf s a).pv_fcff[t - 1]? =
          some ((calculate_dcf s a).fcff * (1 + a.growth_rate) ^ t
                / (1 + (calculate_dcf s a).wacc) ^ t)) ∧
    (calculate_dcf s a).total_pv =
        ((calculate_dcf s a).pv_fcff).sum + (calculate_dcf s a).pv_terminal ∧
    (calculate_dcf s a).market_equity_value =
        (calculate_dcf s a).total_pv + s.cash_equivalents - s.total_debt ∧
    (calculate_dcf s a).fair_value_per_share =
        (if s.shares_outstanding ≠ 0
         then (calculate_dcf s a).market_equity_value / s.shares_outstanding
         else 0) := by
  refine ⟨future_fcff_length s a, pv_fcff_length s a, ?_, rfl, rfl, rfl⟩
  intro t h1 h2
  have hlt : t - 1 < a.forecast_years := by omega
  have ht : t - 1 + 1 = t := by omega
  constructor
  · show (future_fcff s a)[t - 1]? = _
    rw [future_fcff_getElem?, if_pos hlt, ht]
    rfl
  · show (pv_fcff s a)[t - 1]? = _
    rw [pv_fcff_getElem?, if_pos hlt, ht]
    rfl

/-- Witness for C1 at the example snapshot and the default assumptions,
instantiated at forecast year t = 3. -/
theorem C1_witness :
    (calculate_dcf exampleSnapshot defaultAssumptions).future_fcff[2]? =
        some ((calculate_dcf exampleSnapshot defaultAssumptions).fcff
              * (1 + defaultAssumptions.growth_rate) ^ 3) ∧
    (calculate_dcf exampleSnapshot defaultAssumptions).pv_fcff[2]? =
        some ((calculate_dcf exampleSnapshot defaultAssumptions).fcff
              * (1 + defaultAssumptions.growth_rate) ^ 3
              / (1 + (calculate_dcf exampleSnapshot defaultAssumptions).wacc) ^ 3) :=
  (C1_forecast_and_value exampleSnapshot defaultAssumptions).2.2.1 3
    (by decide) (by decide)

/-- C2: the fallback FCFF replaces the primary exactly when the primary
`ebit * (1 - etr) + depreciation - capex - working_capital_change` is
non-positive (the NaN disjunct of line 82 has no rational counterpart);
in that case FCFF is
`net_income + interest_expense * (1 - etr) + depreciation - capex -
working_capital_change`, with a missing net income normalised to 0;
otherwise FCFF is the primary value. -/
theorem C2_fcff_fallback (s : CompanySnapshot) (a : ValuationAssumptions) :
    (0 < s.ebit * (1 - effective_tax_rate s)
          + s.depreciation - s.capex - s.working_capital_change →
      (calculate_dcf s a).fcff =
        s.ebit * (1 - effective_tax_rate s)
          + s.depreciation - s.capex - s.working_capital_change) ∧
    (s.ebit * (1 - effective_tax_rate s)
          + s.depreciation - s.capex - s.working_capital_change ≤ 0 →
      (calculate_dcf s a).fcff =
        s.net_income + s.interest_expense * (1 - effective_tax_rate s)
          + s.depreciation - s.capex - s.working_capital_change) ∧
    (∀ r : RawSnapshot, r.net_income = none →
      (normalizeSnapshot r).net_income = 0) := by
  refine ⟨?_, ?_, ?_⟩
  · intro h
    have hne : ¬ primary_fcff s ≤ 0 := by
      simp only [primary_fcff, not_le]
      exact h
    show fcff s = _
    rw [fcff, if_neg hne, primary_fcff]
  · intro h
    have hle : primary_fcff s ≤ 0 := by
      simp only [primary_fcff]
      exact h
    show fcff s = _
    rw [fcff, if_pos hle, fallback_fcff]
  · intro r hr
    simp [normalizeSnapshot, hr]

/-- Witness for C2: the example snapshot has positive primary FCFF so the
primary is kept, and the all-zero snapshot has primary FCFF 0 so the
fallback is used. -/
theorem C2_witness :
    (calculate_dcf exampleSnapshot defaultAssumptions).fcff =
        exampleSnapshot.ebit * (1 - effective_tax_rate exampleSnapshot)
          + exampleSnapshot.depreciation - exampleSnapshot.capex
          - exampleSnapshot.working_capital_change ∧
    (calculate_dcf zeroSnapshot defaultAssumptions).fcff =
        zeroSnapshot.net_income
          + zeroSnapshot.interest_expense * (1 - effective_tax_rate zeroSnapshot)
          + zeroSnapshot.depreciation - zeroSnapshot.capex
          - zeroSnapshot.working_capital_change :=
  ⟨(C2_fcff_fallback exampleSnapshot defaultAssumptions).1 (by
      simp [effective_tax_rate, exampleSnapshot]
      norm_num),
   (C2_fcff_fallback zeroSnapshot defaultAssumptions).2.1 (by
      simp [effective_tax_rate, zeroSnapshot])⟩

/-- C3: the reported WACC is the blend
`weight_equity * cost_of_equity + weight_debt * cost_of_debt` clamped to
[0.05, 0.25]: a pre-clamp value ≤ 0.05 yields exactly 0.05, one ≥ 0.25
yields exactly 0.25, and a value strictly between passes through. -/
theorem C3_wacc_clamped (s : CompanySnapshot) (a : ValuationAssumptions) :
    (calculate_dcf s a).wacc =
        min (max (weight_equity s * cost_of_equity s a
                    + weight_debt s * cost_of_debt s) 0.05) 0.25 ∧
    (weight_equity s * cost_of_equity s a + weight_debt s * cost_of_debt s
        ≤ 0.05 → (calculate_dcf s a).wacc = 0.05) ∧
    (0.25 ≤ weight_equity s * cost_of_equity s a
              + weight_debt s * cost_of_debt s →
        (calculate_dcf s a).wacc = 0.25) ∧
    (0.05 < weight_equity s * cost_of_equity s a
              + weight_debt s * cost_of_debt s →
     weight_equity s * cost_of_equity s a + weight_debt s * cost_of_debt s
        < 0.25 →
        (calculate_dcf s a).wacc =
          weight_equity s * cost_of_equity s a
            + weight_debt s * cost_of_debt s) := by
  have hw : (calculate_dcf s a).wacc =
      min (max (weight_equity s * cost_of_equity s a
                  + weight_debt s * cost_of_debt s) 0.05) 0.25 := rfl
  refine ⟨hw, ?_, ?_, ?_⟩
  · intro h
    rw [hw, max_eq_right h, min_eq_left (by norm_num)]
  · intro h
    rw [hw, max_eq_left (le_trans (by norm_num) h), min_eq_right h]
  · intro h1 h2
    rw [hw, max_eq_left (le_of_lt h1), min_eq_left (le_of_lt h2)]

/-- Witness for C3: the example snapshot's pre-clamp WACC is 0.08,
strictly inside the band, so it passes through; with all rates zeroed the
pre-clamp WACC is 0 and is clamped up to 0.05; with a 100% market return
assumption and an all-equity example firm it is 1 and is clamped down to
0.25. -/
theorem C3_witness :
    (calculate_dcf exampleSnapshot defaultAssumptions).wacc =
        weight_equity exampleSnapshot * cost_of_equity exampleSnapshot defaultAssumptions
          + weight_debt exampleSnapshot * cost_of_debt exampleSnapshot ∧
    (calculate_dcf zeroSnapshot
        { defaultAssumptions with risk_free_rate := 0, market_return := 0 }).wacc
      = 0.05 ∧
    (calculate_dcf exampleSnapshot
        { defaultAssumptions with risk_free_rate := 1, market_return := 1 }).wacc
      = 0.25 :=
  ⟨(C3_wacc_clamped exampleSnapshot defaultAssumptions).2.2.2
      (by
        simp [weight_equity, weight_debt, total_weight, cost_of_equity,
              cost_of_debt, effective_tax_rate, exampleSnapshot,
              defaultAssumptions]
        norm_num)
      (by
        simp [weight_equity, weight_debt, total_weight, cost_of_equity,
              cost_of_debt, effective_tax_rate, exampleSnapshot,
              defaultAssumptions]
        norm_num),
   (C3_wacc_clamped zeroSnapshot _).2.1
      (by
        simp [weight_equity, weight_debt, total_weight, cost_of_equity,
              cost_of_debt, effective_tax_rate, zeroSnapshot]
        norm_num),
   (C3_wacc_clamped exampleSnapshot _).2.2.1
      (by
        simp [weight_equity, weight_debt, total_weight, cost_of_equity,
              cost_of_debt, effective_tax_rate, exampleSnapshot]
        norm_num)⟩

theorem last_fcff_eq (s : CompanySnapshot) (a : ValuationAssumptions)
    (hn : 1 ≤ a.forecast_years) :
    last_fcff s a = fcff s * (1 + a.growth_rate) ^ a.forecast_years := by
  have hlen : (future_fcff s a).length = a.forecast_years := future_fcff_length s a
  rw [last_fcff, List.getLast?_eq_getElem?, hlen, future_fcff_getElem?,
      if_pos (by omega : a.forecast_years - 1 < a.forecast_years)]
  have : a.forecast_years - 1 + 1 = a.forecast_years := by omega
  rw [this]
  rfl

/-- C4: the terminal value is
`future_fcff[forecast_years] * (1 + perpetual_growth_rate) /
(wacc - perpetual_growth_rate)` whenever `wacc > perpetual_growth_rate`,
and 0 otherwise; in the latter case the discounted terminal value is 0 as
well. -/
theorem C4_terminal_value (s : CompanySnapshot) (a : ValuationAssumptions)
    (hn : 1 ≤ a.forecast_years) :
    (∀ l : ℚ,
      (calculate_dcf s a).future_fcff[a.forecast_years - 1]? = some l →
      a.perpetual_growth_rate < (calculate_dcf s a).wacc →
        (calculate_dcf s a).terminal_value =
          l * (1 + a.perpetual_growth_rate)
            / ((calculate_dcf s a).wacc - a.perpetual_growth_rate)) ∧
    ((calculate_dcf s a).wacc ≤ a.perpetual_growth_rate →
        (calculate_dcf s a).terminal_value = 0 ∧
        (calculate_dcf s a).pv_terminal = 0) := by
  constructor
  · intro l hl hlt
    have hl2 : (future_fcff s a)[a.forecast_years - 1]? = some l := hl
    rw [future_fcff_getElem?,
        if_pos (by omega : a.forecast_years - 1 < a.forecast_years)] at hl2
    have hlast : last_fcff s a = l := by
      rw [last_fcff_eq s a hn, ← Option.some_inj, ← hl2]
      have : a.forecast_years - 1 + 1 = a.forecast_years := by omega
      rw [this]
    have hlt2 : a.perpetual_growth_rate < wacc s a := hlt
    show terminal_value s a = _
    rw [terminal_value, if_pos hlt2, hlast]
    rfl
  · intro h
    have hnlt : ¬ a.perpetual_growth_rate < wacc s a := not_lt.mpr h
    have htv : terminal_value s a = 0 := by
      rw [terminal_value, if_neg hnlt]
    refine ⟨htv, ?_⟩
    show pv_terminal s a = 0
    rw [pv_terminal, if_neg (by simp [htv])]

/-- Witness for C4: for the example snapshot under the default
assumptions WACC is 0.08 > 0.03 so the perpetuity formula applies to the
fifth forecast entry; raising the perpetual growth assumption to 0.5
forces the degenerate branch, where both terminal values are 0. -/
theorem C4_witness :
    (calculate_dcf exampleSnapshot defaultAssumptions).terminal_value =
        (calculate_dcf exampleSnapshot defaultAssumptions).fcff
            * (1 + defaultAssumptions.growth_rate) ^ 5
            * (1 + defaultAssumptions.perpetual_growth_rate)
            / ((calculate_dcf exampleSnapshot defaultAssumptions).wacc
                - defaultAssumptions.perpetual_growth_rate) ∧
    (calculate_dcf exampleSnapshot
        { defaultAssumptions with perpetual_growth_rate := 0.5 }).terminal_value
      = 0 ∧
    (calculate_dcf exampleSnapshot
        { defaultAssumptions with perpetual_growth_rate := 0.5 }).pv_terminal
      = 0 := by
  refine ⟨?_, ?_⟩
  · exact (C4_terminal_value exampleSnapshot defaultAssumptions
        (by decide)).1
      ((calculate_dcf exampleSnapshot defaultAssumptions).fcff
          * (1 + defaultAssumptions.growth_rate) ^ 5)
      (by
        show (future_fcff exampleSnapshot defaultAssumptions)[4]? = _
        rw [future_fcff_getElem?]
        rfl)
      (by
        show (0.03 : ℚ) < wacc exampleSnapshot defaultAssumptions
        simp [wacc, wacc_pre_clamp, weight_equity, weight_debt, total_weight,
              cost_of_equity, cost_of_debt, effective_tax_rate,
              exampleSnapshot, defaultAssumptions]
        norm_num)
  · exact (C4_terminal_value exampleSnapshot
        { defaultAssumptions with perpetual_growth_rate := 0.5 }
        (by decide)).2
      (by
        show wacc exampleSnapshot _ ≤ (0.5 : ℚ)
        norm_num [wacc, wacc_pre_clamp, weight_equity, weight_debt,
              total_weight, cost_of_equity, cost_of_debt, effective_tax_rate,
              exampleSnapshot, defaultAssumptions])

/-- C9 counterexample: on the testable-properties example snapshot
(beta 1, risk-free rate 0.0917, market return 0.08) the engine's CAPM
cost of equity is not 0.0917. -/
theorem C9_counterexample :
    cost_of_equity exampleSnapshot defaultAssumptions ≠ 0.0917 := by
  norm_num [cost_of_equity, exampleSnapshot, defaultAssumptions]

/-- C9 amended: with beta = 1 the CAPM formula
`risk_free_rate + beta * (market_return - risk_free_rate)` collapses to
the market return, so the engine computes cost_of_equity = 0.08 on the
example snapshot, not 0.0917. -/
theorem C9_cost_of_equity :
    cost_of_equity exampleSnapshot defaultAssumptions = 0.08 := by
  norm_num [cost_of_equity, exampleSnapshot, defaultAssumptions]

/-- C10: when the current price is 0 (the normalizer's default for a
missing price) the upside guard of line 115 yields 0, and the verdict of
line 117 (`Undervalued iff upside > 0`) is therefore Overvalued, whatever
the fair value per share is. -/
theorem C10_zero_price_overvalued (s : CompanySnapshot)
    (a : ValuationAssumptions) (h : s.current_price = 0) :
    (calculate_dcf s a).upside_pct = 0 ∧
    (calculate_dcf s a).valuation_verdict = Verdict.Overvalued ∧
    (∀ r : RawSnapshot, r.current_price = none →
      (normalizeSnapshot r).current_price = 0) := by
  have hup : upside s a = 0 := by
    rw [upside, if_neg (by simp [h])]
  refine ⟨hup, ?_, ?_⟩
  · show valuation s a = Verdict.Overvalued
    rw [valuation, if_neg (by simp [hup])]
  · intro r hr
    simp [normalizeSnapshot, hr]

/-- Witness for C10: the cash-pile snapshot has a strictly positive fair
value per share (100 per share) yet, with its price missing and so
defaulted to 0, its upside is 0 and it is labelled Overvalued. -/
theorem C10_witness :
    0 < (calculate_dcf cashSnapshot defaultAssumptions).fair_value_per_share ∧
    (calculate_dcf cashSnapshot defaultAssumptions).upside_pct = 0 ∧
    (calculate_dcf cashSnapshot defaultAssumptions).valuation_verdict =
      Verdict.Overvalued :=
  ⟨by
    show (0 : ℚ) < fair_value_per_share cashSnapshot defaultAssumptions
    have hfcff : fcff cashSnapshot = 0 := by
      norm_num [fcff, primary_fcff, fallback_fcff, effective_tax_rate,
                cashSnapshot]
    have hfut : future_fcff cashSnapshot defaultAssumptions =
        (List.range 5).map (fun _ => 0) := by
      rw [future_fcff, hfcff]
      simp [defaultAssumptions]
    have hpv : pv_fcff cashSnapshot defaultAssumptions =
        (future_fcff cashSnapshot defaultAssumptions).enum.map
          (fun p => p.2 / (1 + wacc cashSnapshot defaultAssumptions) ^ (p.1 + 1)) :=
      rfl
    have hsum : (pv_fcff cashSnapshot defaultAssumptions).sum = 0 := by
      rw [hpv, hfut]
      simp [List.enum]
    have hlast : last_fcff cashSnapshot defaultAssumptions = 0 := by
      rw [last_fcff_eq _ _ (by decide), hfcff]
      ring
    have htv : terminal_value cashSnapshot defaultAssumptions = 0 := by
      rw [terminal_value]
      split
      · rw [hlast]; ring
      · rfl
    have hpvt : pv_terminal cashSnapshot defaultAssumptions = 0 := by
      rw [pv_terminal, if_neg (by simp [htv])]
    rw [fair_value_per_share, if_pos (by norm_num [cashSnapshot]),
        market_equity_value, total_pv, hsum, hpvt]
    norm_num [cashSnapshot],
   (C10_zero_price_overvalued cashSnapshot defaultAssumptions rfl).1,
   (C10_zero_price_overvalued cashSnapshot defaultAssumptions rfl).2.1⟩

/-- A division that faults on a zero denominator, used to replay the
engine with every division observed: the engine raises no fault exactly
when each of its divisions is reached only with a nonzero denominator. -/
def cdiv (x y : ℚ) : Except String ℚ :=
  if y = 0 then Except.error "division by zero" else Except.ok (x / y)

theorem except_ok_bind {ε α β : Type} (x : α) (f : α → Except ε β) :
    (Except.ok x : Except ε α) >>= f = f x := rfl

theorem cdiv_ok {x y : ℚ} (h : y ≠ 0) : cdiv x y = Except.ok (x / y) := by
  rw [cdiv, if_neg h]

theorem mapM_cdiv_ok {α : Type} (f g : α → ℚ) :
    ∀ l : List α, (∀ x ∈ l, g x ≠ 0) →
      l.mapM (fun x => cdiv (f x) (g x)) =
        Except.ok (l.map (fun x => f x / g x))
  | [], _ => rfl
  | x :: xs, h => by
      have hx : g x ≠ 0 := h x (List.mem_cons_self x xs)
      have ih := mapM_cdiv_ok f g xs
        (fun y hy => h y (List.mem_cons_of_mem x hy))
      rw [List.mapM_cons, cdiv_ok hx, except_ok_bind, ih]
      rfl

theorem wacc_ge (s : CompanySnapshot) (a : ValuationAssumptions) :
    (0.05 : ℚ) ≤ wacc s a := by
  rw [wacc]
  exact le_min (le_max_right _ _) (by norm_num)

theorem one_add_wacc_ne_zero (s : CompanySnapshot)
    (a : ValuationAssumptions) : (1 + wacc s a) ≠ 0 := by
  have h := wacc_ge s a
  intro hc
  have hw : wacc s a = -1 := by linarith
  rw [hw] at h
  norm_num at h

/-- Line 79 and 89 with the division observed. -/
def effective_tax_rate_checked (s : CompanySnapshot) : Except String ℚ :=
  if s.income_before_tax ≠ 0 then cdiv s.taxes s.income_before_tax
  else Except.ok 0.25

/-- Line 90 with the division observed. -/
def cost_of_debt_checked (s : CompanySnapshot) : Except String ℚ :=
  if s.total_debt ≠ 0 then do
    let q ← cdiv s.interest_expense s.total_debt
    Except.ok (q * (1 - effective_tax_rate s))
  else Except.ok 0

/-- Line 93 with the division observed. -/
def weight_debt_checked (s : CompanySnapshot) : Except String ℚ :=
  if total_weight s ≠ 0 then cdiv s.total_debt (total_weight s)
  else Except.ok 0

/-- Line 94 with the division observed. -/
def weight_equity_checked (s : CompanySnapshot) : Except String ℚ :=
  if total_weight s ≠ 0 then cdiv s.market_cap (total_weight s)
  else Except.ok 1

/-- Line 100 with the division observed. -/
def roic_checked (s : CompanySnapshot) : Except String ℚ :=
  if invested_capital s ≠ 0
  then cdiv (s.ebit * (1 - effective_tax_rate s)) (invested_capital s)
  else Except.ok 0

/-- Line 106 with the division observed. -/
def terminal_value_checked (s : CompanySnapshot) (a : ValuationAssumptions) :
    Except String ℚ :=
  if a.perpetual_growth_rate < wacc s a
  then cdiv (last_fcff s a * (1 + a.perpetual_growth_rate))
            (wacc s a - a.perpetual_growth_rate)
  else Except.ok 0

/-- Line 108 with each division observed. -/
def pv_fcff_checked (s : CompanySnapshot) (a : ValuationAssumptions) :
    Except String (List ℚ) :=
  (future_fcff s a).enum.mapM
    (fun p => cdiv p.2 ((1 + wacc s a) ^ (p.1 + 1)))

/-- Line 109 with the division observed. -/
def pv_terminal_checked (s : CompanySnapshot) (a : ValuationAssumptions) :
    Except String ℚ :=
  if terminal_value s a ≠ 0
  then cdiv (terminal_value s a) ((1 + wacc s a) ^ a.forecast_years)
  else Except.ok 0

/-- Line 113 with the division observed. -/
def fair_value_per_share_checked (s : CompanySnapshot)
    (a : ValuationAssumptions) : Except String ℚ :=
  if s.shares_outstanding ≠ 0
  then cdiv (market_equity_value s a) s.shares_outstanding
  else Except.ok 0

/-- Line 115 with the division observed. -/
def upside_checked (s : CompanySnapshot) (a : ValuationAssumptions) :
    Except String ℚ :=
  if s.current_price ≠ 0 then do
    let q ← cdiv (fair_value_per_share s a - s.current_price) s.current_price
    Except.ok (q * 100)
  else Except.ok 0

/-- Line 116 with the division observed. -/
def margin_of_safety_checked (s : CompanySnapshot) (a : ValuationAssumptions) :
    Except String ℚ :=
  if fair_value_per_share s a ≠ 0 then do
    let q ← cdiv (fair_value_per_share s a - s.current_price)
                 (fair_value_per_share s a)
    Except.ok (q * 100)
  else Except.ok 0

theorem effective_tax_rate_checked_ok (s : CompanySnapshot) :
    effective_tax_rate_checked s = Except.ok (effective_tax_rate s) := by
  rw [effective_tax_rate_checked, effective_tax_rate]
  split
  · exact cdiv_ok (by assumption)
  · rfl

theorem cost_of_debt_checked_ok (s : CompanySnapshot) :
    cost_of_debt_checked s = Except.ok (cost_of_debt s) := by
  rw [cost_of_debt_checked, cost_of_debt]
  split
  · rw [cdiv_ok (by assumption), except_ok_bind]
  · rfl

theorem weight_debt_checked_ok (s : CompanySnapshot) :
    weight_debt_checked s = Except.ok (weight_debt s) := by
  rw [weight_debt_checked, weight_debt]
  split
  · exact cdiv_ok (by assumption)
  · rfl

theorem weight_equity_checked_ok (s : CompanySnapshot) :
    weight_equity_checked s = Except.ok (weight_equity s) := by
  rw [weight_equity_checked, weight_equity]
  split
  · exact cdiv_ok (by assumption)
  · rfl

theorem roic_checked_ok (s : CompanySnapshot) :
    roic_checked s = Except.ok (roic s) := by
  rw [roic_checked, roic]
  split
  · exact cdiv_ok (by assumption)
  · rfl

theorem terminal_value_checked_ok (s : CompanySnapshot)
    (a : ValuationAssumptions) :
    terminal_value_checked s a = Except.ok (terminal_value s a) := by
  rw [terminal_value_checked, terminal_value]
  split
  · exact cdiv_ok (sub_ne_zero.mpr (ne_of_gt (by assumption)))
  · rfl

theorem pv_fcff_checked_ok (s : CompanySnapshot) (a : ValuationAssumptions) :
    pv_fcff_checked s a = Except.ok (pv_fcff s a) := by
  have h := mapM_cdiv_ok (fun p : ℕ × ℚ => p.2)
      (fun p : ℕ × ℚ => (1 + wacc s a) ^ (p.1 + 1))
      (future_fcff s a).enum
      (fun p _ => pow_ne_zero _ (one_add_wacc_ne_zero s a))
  rw [pv_fcff_checked]
  exact h

theorem pv_terminal_checked_ok (s : CompanySnapshot)
    (a : ValuationAssumptions) :
    pv_terminal_checked s a = Except.ok (pv_terminal s a) := by
  rw [pv_terminal_checked, pv_terminal]
  split
  · exact cdiv_ok (pow_ne_zero _ (one_add_wacc_ne_zero s a))
  · rfl

theorem fair_value_per_share_checked_ok (s : CompanySnapshot)
    (a : ValuationAssumptions) :
    fair_value_per_share_checked s a =
      Except.ok (fair_value_per_share s a) := by
  rw [fair_value_per_share_checked, fair_value_per_share]
  split
  · exact cdiv_ok (by assumption)
  · rfl

theorem upside_checked_ok (s : CompanySnapshot) (a : ValuationAssumptions) :
    upside_checked s a = Except.ok (upside s a) := by
  rw [upside_checked, upside]
  split
  · rw [cdiv_ok (by assumption), except_ok_bind]
  · rfl

theorem margin_of_safety_checked_ok (s : CompanySnapshot)
    (a : ValuationAssumptions) :
    margin_of_safety_checked s a =
      Except.ok (margin_of_safety_pct s a) := by
  rw [margin_of_safety_checked, margin_of_safety_pct]
  split
  · rw [cdiv_ok (by assumption), except_ok_bind]
  · rfl

/-- The computation of lines 79-117 replayed with every division
observed by `cdiv`, each guarded exactly as in the source. -/
def calculate_dcf_checked (s : CompanySnapshot) (a : ValuationAssumptions) :
    Except String DCFResult := do
  let etr ← effective_tax_rate_checked s
  let fcff0 := s.ebit * (1 - etr)
      + s.depreciation - s.capex - s.working_capital_change
  let f := if fcff0 ≤ 0 then
      s.net_income + s.interest_expense * (1 - etr)
        + s.depreciation - s.capex - s.working_capital_change
    else fcff0
  let cod ← cost_of_debt_checked s
  let coe := a.risk_free_rate + s.beta * (a.market_return - a.risk_free_rate)
  let wd ← weight_debt_checked s
  let we ← weight_equity_checked s
  let w := min (max (we * coe + wd * cod) 0.05) 0.25
  let r ← roic_checked s
  let ex := if r ≠ 0 ∧ w ≠ 0 then r - w else 0
  let ff := (List.range a.forecast_years).map
      (fun i => f * (1 + a.growth_rate) ^ (i + 1))
  let tv ← terminal_value_checked s a
  let pvs ← pv_fcff_checked s a
  let pvt ← pv_terminal_checked s a
  let tp := pvs.sum + pvt
  let mev := tp + s.cash_equivalents - s.total_debt
  let fv ← fair_value_per_share_checked s a
  let up ← upside_checked s a
  let mos ← margin_of_safety_checked s a
  Except.ok {
    fcff := f
    effective_tax_rate := etr
    wacc := w
    roic := r
    excess_returns := ex
    future_fcff := ff
    pv_fcff := pvs
    terminal_value := tv
    pv_terminal := pvt
    total_pv := tp
    market_equity_value := mev
    fair_value_per_share := fv
    upside_pct := up
    margin_of_safety_pct := mos
    valuation_verdict :=
      if 0 < up then Verdict.Undervalued else Verdict.Overvalued }

/-- C5: the valuation is total.  Replaying the engine with every division
observed, no input — zeroed or otherwise — ever reaches a division with a
zero denominator: the run always returns `ok`, and its value is exactly
the engine's result, so each guard produces its fallback instead of a
fault. -/
theorem C5_no_division_fault (s : CompanySnapshot)
    (a : ValuationAssumptions) :
    calculate_dcf_checked s a = Except.ok (calculate_dcf s a) := by
  rw [calculate_dcf_checked, effective_tax_rate_checked_ok, except_ok_bind,
      cost_of_debt_checked_ok, except_ok_bind,
      weight_debt_checked_ok, except_ok_bind,
      weight_equity_checked_ok, except_ok_bind,
      roic_checked_ok, except_ok_bind,
      terminal_value_checked_ok, except_ok_bind,
      pv_fcff_checked_ok, except_ok_bind,
      pv_terminal_checked_ok, except_ok_bind,
      fair_value_per_share_checked_ok, except_ok_bind,
      upside_checked_ok, except_ok_bind,
      margin_of_safety_checked_ok, except_ok_bind]
  rfl

/-- One per-ticker outcome of the batch: the computed valuation (the
source signals success by writing the report and the CSV row) or the
error string built at line 187. -/
inductive BatchOutcome where
  | success : DCFResult → BatchOutcome
  | error : String → BatchOutcome
  deriving Repr, DecidableEq

/-- Lines 37-187 and 192-196 seen from the orchestrator: fetch the raw
snapshot for one ticker, normalise it, evaluate it; any fetch failure is
caught and converted to the line 187 error string carrying the ticker and
the cause. -/
def safe_calculate_dcf (fetch : String → Except String RawSnapshot)
    (a : ValuationAssumptions) (t : String) : BatchOutcome :=
  match fetch t with
  | Except.error e =>
      BatchOutcome.error
        ("Error fetching data or calculating DCF for " ++ t ++ ": " ++ e)
  | Except.ok raw =>
      BatchOutcome.success (calculate_dcf (normalizeSnapshot raw) a)

/-- The thread pool of lines 215-216 modelled by an explicit completion
schedule: `order` lists the job indices in the order the workers finish,
and each completion stores the outcome of the i-th ticker in result slot
i (the slot-per-input-position that `executor.map` keeps). -/
def runCompletions {α β : Type} (f : α → β) (ts : List α)
    (order : List ℕ) : ℕ → Option β :=
  order.foldl
    (fun slots k j => if j = k then ts[k]?.map f else slots j)
    (fun _ => none)

/-- `list(executor.map(...))` at line 216: after all completions the
slots are read out in input order.  The readout happens only on the fully
folded schedule, i.e. after the last worker finishes. -/
def executorMapRun {α β : Type} (f : α → β) (ts : List α)
    (order : List ℕ) : List (Option β) :=
  (List.range ts.length).map (runCompletions f ts order)

theorem foldl_slots_eq {α β : Type} (f : α → β) (ts : List α)
    (order : List ℕ) :
    ∀ (init : ℕ → Option β) (i : ℕ),
      order.foldl
          (fun slots k j => if j = k then ts[k]?.map f else slots j)
          init i
        = if i ∈ order then ts[i]?.map f else init i := by
  induction order with
  | nil => intro init i; simp
  | cons k rest ih =>
      intro init i
      rw [List.foldl_cons, ih]
      by_cases hr : i ∈ rest
      · simp [hr]
      · by_cases hk : i = k
        · subst hk
          simp [hr]
        · simp [hr, hk]

theorem map_range_slots {α β : Type} (f : α → β) :
    ∀ ts : List α,
      (List.range ts.length).map (fun i => ts[i]?.map f)
        = ts.map (fun t => some (f t))
  | [] => by simp
  | x :: xs => by
      rw [List.length_cons, List.range_succ_eq_map, List.map_cons,
          List.map_map]
      have hxs := map_range_slots f xs
      simp only [List.getElem?_cons_zero, List.map_cons,
                 Function.comp_def, List.getElem?_cons_succ]
      rw [hxs]
      rfl

theorem executorMapRun_eq {α β : Type} (f : α → β) (ts : List α)
    (order : List ℕ) (h : order.Perm (List.range ts.length)) :
    executorMapRun f ts order = ts.map (fun t => some (f t)) := by
  rw [executorMapRun, ← map_range_slots f ts]
  apply List.map_congr_left
  intro i hi
  rw [runCompletions, foldl_slots_eq,
      if_pos (h.mem_iff.mpr hi)]

/-- C6: under any completion schedule that is a permutation of the job
indices, the batch run hands back exactly one outcome per input ticker,
in input order — the collected list is a function of the input sequence
alone, and it exists only after the whole schedule has been folded. -/
theorem C6_batch_order (fetch : String → Except String RawSnapshot)
    (a : ValuationAssumptions) (ts : List String) (order : List ℕ)
    (h : order.Perm (List.range ts.length)) :
    executorMapRun (safe_calculate_dcf fetch a) ts order
      = ts.map (fun t => some (safe_calculate_dcf fetch a t)) ∧
    (executorMapRun (safe_calculate_dcf fetch a) ts order).length
      = ts.length := by
  have main := executorMapRun_eq (safe_calculate_dcf fetch a) ts order h
  exact ⟨main, by rw [main, List.length_map]⟩

/-- A provider response carrying the example financials of the spec's
testable-properties section. -/
def exampleRaw : RawSnapshot where
  ebit := some 1000
  taxes := some 250
  income_before_tax := some 1000
  depreciation := some 100
  capital_expenditure := some (-150)
  working_capital_change := some 50
  interest_expense := none
  total_debt := some 0
  cash_equivalents := none
  shares_outstanding := none
  market_cap := some 10000
  current_assets := none
  current_liabilities := none
  net_ppe := none
  beta := some 1
  current_price := none
  net_income := none

/-- A provider that fails on ADH.JO and answers every other ticker with
the example financials. -/
def exampleFetch : String → Except String RawSnapshot := fun t =>
  if t = "ADH.JO" then Except.error "connection timed out"
  else Except.ok exampleRaw

/-- Witness for C6: three tickers scheduled to complete in the order
third, first, second still come back in input order. -/
theorem C6_witness :
    executorMapRun (safe_calculate_dcf exampleFetch defaultAssumptions)
        ["ABG.JO", "ADH.JO", "AEL.JO"] [2, 0, 1]
      = ["ABG.JO", "ADH.JO", "AEL.JO"].map
          (fun t => some (safe_calculate_dcf exampleFetch defaultAssumptions t)) :=
  (C6_batch_order exampleFetch defaultAssumptions
    ["ABG.JO", "ADH.JO", "AEL.JO"] [2, 0, 1] (by decide)).1

/-- C7: if the provider fails on the ticker at position i, that slot of
the batch output is the error outcome carrying the ticker name and the
cause, and every ticker's slot (the failing one aside) still holds the
outcome of its own fetch-normalise-evaluate pipeline: one failure never
disturbs the rest of the batch. -/
theorem C7_fault_isolation (fetch : String → Except String RawSnapshot)
    (a : ValuationAssumptions) (ts : List String) (order : List ℕ)
    (i : ℕ) (t e : String)
    (hperm : order.Perm (List.range ts.length))
    (hi : ts[i]? = some t) (hfail : fetch t = Except.error e) :
    (executorMapRun (safe_calculate_dcf fetch a) ts order)[i]? =
        some (some (BatchOutcome.error
          ("Error fetching data or calculating DCF for " ++ t ++ ": " ++ e))) ∧
    (∀ (j : ℕ) (u : String), ts[j]? = some u →
      (executorMapRun (safe_calculate_dcf fetch a) ts order)[j]? =
        some (some (safe_calculate_dcf fetch a u))) := by
  have hrun := executorMapRun_eq (safe_calculate_dcf fetch a) ts order hperm
  constructor
  · rw [hrun, List.getElem?_map, hi]
    simp [safe_calculate_dcf, hfail]
  · intro j u hj
    rw [hrun, List.getElem?_map, hj]
    rfl

/-- Witness for C7: with ADH.JO failing at input position 1, slot 1 is
the tagged error and slot 0 still carries ABG.JO's own outcome. -/
theorem C7_witness :
    (executorMapRun (safe_calculate_dcf exampleFetch defaultAssumptions)
        ["ABG.JO", "ADH.JO", "AEL.JO"] [2, 0, 1])[1]? =
      some (some (BatchOutcome.error
        ("Error fetching data or calculating DCF for " ++ "ADH.JO" ++ ": "
          ++ "connection timed out"))) ∧
    (executorMapRun (safe_calculate_dcf exampleFetch defaultAssumptions)
        ["ABG.JO", "ADH.JO", "AEL.JO"] [2, 0, 1])[0]? =
      some (some (safe_calculate_dcf exampleFetch defaultAssumptions
        "ABG.JO")) :=
  ⟨(C7_fault_isolation exampleFetch defaultAssumptions
      ["ABG.JO", "ADH.JO", "AEL.JO"] [2, 0, 1] 1 "ADH.JO"
      "connection timed out" (by decide) rfl rfl).1,
   (C7_fault_isolation exampleFetch defaultAssumptions
      ["ABG.JO", "ADH.JO", "AEL.JO"] [2, 0, 1] 1 "ADH.JO"
      "connection timed out" (by decide) rfl rfl).2 0 "ABG.JO" rfl⟩

/-- The global `financial_data_records` list of line 32 as the run
produces it: each worker appends its CSV row (lines 149-181) at the
moment its job completes, so rows accumulate in completion order while
the pool is still running.  `row t = none` models a ticker whose worker
raised before the append. -/
def financial_data_records {α β : Type} (row : α → Option β)
    (ts : List α) (order : List ℕ) : List β :=
  order.foldl
    (fun recs k =>
      match ts[k]? with
      | some t =>
          match row t with
          | some r => recs ++ [r]
          | none => recs
      | none => recs)
    []

/-- C8 fails on the code: the CSV rows live in a module-level list that
every worker appends to from inside `calculate_dcf`, so their order is a
property of the completion schedule, not of the input.  Two schedules
that are both permutations of the same two-ticker batch produce the rows
in different orders. -/
theorem C8_shared_records_schedule_dependent :
    [1, 0].Perm (List.range 2) ∧
    financial_data_records (fun t => some t) ["ABG.JO", "ADH.JO"] [0, 1]
      = ["ABG.JO", "ADH.JO"] ∧
    financial_data_records (fun t => some t) ["ABG.JO", "ADH.JO"] [1, 0]
      = ["ADH.JO", "ABG.JO"] ∧
    financial_data_records (fun t => some t) ["ABG.JO", "ADH.JO"] [1, 0]
      ≠ ["ABG.JO", "ADH.JO"] := by
  refine ⟨by decide, rfl, rfl, by decide⟩
